import Mathlib

/-
Verification of `datafun-venv-checker` (`venv_checker.py` plus packaging
metadata in `setup.py`) against its natural-language specification.

The script is a `unittest.TestCase` with three test methods, run by
`unittest.main` in alphabetical order of method names:
  1. `test_requirements_installed`
  2. `test_venv_exists`
  3. `test_venv_is_active`
A `setUp` hook runs before each test method and calls `self.skipTest`
when `requirements.txt` is missing.  The class overrides `fail` so that a
failing check only logs and prints; it does not raise.

The embedding below models the relevant system state (filesystem facts,
the `VIRTUAL_ENV` variable, the outcome of each `pip show` subprocess)
and reproduces each method as a pure function producing a check result,
the log entries written through `logging`, the lines written with
`print`, the progress increment, and the package queries spawned.
String literals reproduce the Python messages, except that contractions
are written out (for example "You are" for the contracted form) in the
progress messages.
-/

namespace VenvChecker

/-- ASCII whitespace characters removed by the Python `str.strip()` calls in
`venv_checker.py`: space, tab, newline, carriage return, vertical tab
(codepoint 11) and form feed (codepoint 12).  (Python also strips some
non-ASCII Unicode whitespace; requirements files are modelled as ASCII.) -/
def isPySpace (c : Char) : Bool :=
  c == ' ' || c == '\t' || c == '\n' || c == '\r' ||
    c == Char.ofNat 11 || c == Char.ofNat 12

/-- Drop the longest prefix of whitespace characters. -/
def dropLeadingSpace : List Char → List Char
  | [] => []
  | c :: cs => if isPySpace c then dropLeadingSpace cs else c :: cs

/-- Python `line.strip()`: remove leading and trailing whitespace. -/
def pyStrip (s : String) : String :=
  ⟨(dropLeadingSpace (dropLeadingSpace s.data).reverse).reverse⟩

/-- Python `s.startswith(pre)`: the characters of `pre` are a prefix of
the characters of `s` (defined over the character lists, unlike
`String.startsWith`, so that proofs can evaluate it). -/
def pyStartsWith (s pre : String) : Bool :=
  pre.data.isPrefixOf s.data

/-- The list comprehension in `test_requirements_installed`:
`[line.strip() for line in f if line.strip() and not line.strip().startswith("#")]`.
A non-empty string is truthy in Python, so a line is kept exactly when its
stripped form is non-empty and does not start with `#`, and the kept lines
are the stripped forms, in file order. -/
def parseRequirements : List String → List String
  | [] => []
  | line :: rest =>
    let s := pyStrip line
    if s != "" && !(pyStartsWith s "#") then s :: parseRequirements rest
    else parseRequirements rest

/-- Outcome of one `subprocess.check_call([sys.executable, "-m", "pip", "show", package], ...)`:
the process runs and exits 0 (`installed`), the process runs and exits
non-zero, raising `subprocess.CalledProcessError` (`notInstalled`), or the
spawn itself fails with an `OSError` such as `FileNotFoundError` or
`PermissionError` (`spawnError`), which the `except CalledProcessError`
clause does not catch. -/
inductive QueryOutcome where
  | installed
  | notInstalled
  | spawnError
  deriving DecidableEq, Repr

/-- Logging level of an emitted record (the script uses `logging.info` and
`logging.error` only). -/
inductive Level where
  | info
  | error
  deriving DecidableEq, Repr

/-- One record written through the `logging` module (sent to both the
console handler and the `venv_checker.log` file handler). -/
structure LogEntry where
  level : Level
  msg : String
  deriving DecidableEq, Repr

/-- Outcome of one test method as recorded by the `unittest` runner.
`failed` is produced by the overridden `fail` (which logs and prints but
does not raise, so the suite continues); `skipped` by `self.skipTest`;
`errored` by an exception that escapes the method body, which the runner
catches and records as an error, continuing with the remaining tests. -/
inductive CheckResult where
  | passed
  | failed (msg : String)
  | skipped (msg : String)
  | errored
  deriving DecidableEq, Repr

/-- The parts of the environment the script reads: whether `.venv` is a
directory in the working directory, the value of the `VIRTUAL_ENV`
environment variable (`none` when unset), the lines of `requirements.txt`
(`none` when the file does not exist), and the outcome of the `pip show`
subprocess for each package name. -/
structure SystemState where
  dotVenvExists : Bool
  virtualEnv : Option String
  requirementsFile : Option (List String)
  query : String → QueryOutcome

/-- Everything one test-method execution produces: its recorded result,
the log records, the lines written via `print`, the amount added to the
global `progress` counter, and the package-query subprocesses spawned
(in order). -/
structure CheckRun where
  result : CheckResult
  logs : List LogEntry
  printed : List String
  progressGain : Nat
  queriesIssued : List String
  deriving DecidableEq, Repr

/-- The `log_progress` function: logs a milestone message at 33, 66 and
100 percent, and a plain percentage otherwise, at info level. -/
def log_progress (progress : Nat) : LogEntry :=
  if progress = 33 then
    ⟨.info, "Progress: 33% - You are 1/3 done - good start!"⟩
  else if progress = 66 then
    ⟨.info, "Progress: 66% - You are 2/3 done - almost there!"⟩
  else if progress = 100 then
    ⟨.info, "Progress: 100% - 100% completed - all checks passed. Nice work!"⟩
  else
    ⟨.info, s!"Progress: {progress}%."⟩

/-- Python truthiness of `os.getenv("VIRTUAL_ENV")`: `None` (variable
unset) and the empty string are falsy, any other string is truthy. -/
def getenvTruthy : Option String → Bool
  | none => false
  | some s => s != ""

/-- The `GUIDE_IF_DOT_VENV_MISSING` constant (defined at module level in
`venv_checker.py`; no statement of the script ever references it). -/
def GUIDE_IF_DOT_VENV_MISSING : String := r"
ERROR: Missing .venv folder - HOW TO FIX
    Create your local project virtual env and activate it.
    Open a terminal in your ROOT PROJECT FOLDER and run each command separately.

    On Windows, use a PowerShell terminal.
       py -m venv .venv
       .\.venv\Scripts\activate
    On Mac or Linux, use your zsh or bash terminal.
       python3 -m venv .venv
       source .venv/bin/activate
"

/-- The `GUIDE_IF_INACTIVE` constant (contraction written out in the last
line; no statement of the script ever references it). -/
def GUIDE_IF_INACTIVE : String := r"
ERROR: Local project virtual environment is not active - HOW TO FIX
    Create your local project virtual env and activate it.
    Open a terminal in your ROOT PROJECT FOLDER and run each command separately.

    On Windows, use a PowerShell terminal.
       py -m venv .venv
       .\.venv\Scripts\activate
    On Mac/Linux, use your zsh or bash terminal.
       python3 -m venv .venv
       source .venv/bin/activate

    If activation still fails, ensure you have installed a current Python version on your machine.
"

/-- The `GUIDE_IF_REQ_FILE_MISSING` constant (never referenced by the
script). -/
def GUIDE_IF_REQ_FILE_MISSING : String := r"
ERROR: Local requirements.txt file is missing - HOW TO FIX
    Create a requirements.txt file in your ROOT PROJECT FOLDER.

    On Windows, use a PowerShell terminal.
       ni requirements.txt
    On Mac or Linux, use your zsh or bash terminal.
       touch requirements.txt

    Then, open your Project Folder in VS Code and edit the file.
    List each required package, one per line, in requirements.txt.
"

/-- The `GUIDE_IF_REQ_PACKAGE_MISSING` constant (never referenced by the
script). -/
def GUIDE_IF_REQ_PACKAGE_MISSING : String := r"
ERROR: Not all packages listed in requirements.txt are installed - HOW TO FIX
    Install packages in requirements.txt into your active .venv.
    Open a terminal in your ROOT PROJECT FOLDER and run the command.

    On Windows, use a PowerShell terminal.
       py -m pip install --upgrade -r requirements.txt
    On Mac/Linux, use your zsh or bash terminal.
       python3 -m pip install --upgrade -r requirements.txt
"

/-- The body of `test_venv_exists`: checks `os.path.isdir(".venv")`; on
success adds 33 to progress and logs, on failure logs an error and calls
the overridden `fail`, which logs and prints a `Test Failed:` line. -/
def test_venv_exists (st : SystemState) (progress : Nat) : CheckRun :=
  if st.dotVenvExists then
    { result := .passed
      logs := [⟨.info, ".venv folder exists."⟩, log_progress (progress + 33)]
      printed := []
      progressGain := 33
      queriesIssued := [] }
  else
    { result := .failed "Virtual environment (.venv) not found."
      logs := [⟨.error, ".venv folder not found."⟩,
               ⟨.error, "Test Failed: Virtual environment (.venv) not found."⟩]
      printed := ["Test Failed: Virtual environment (.venv) not found."]
      progressGain := 0
      queriesIssued := [] }

/-- The body of `test_venv_is_active`: checks `os.getenv("VIRTUAL_ENV")`
for truthiness; on success adds 33 to progress and logs, on failure logs
an error and calls the overridden `fail`. -/
def test_venv_is_active (st : SystemState) (progress : Nat) : CheckRun :=
  if getenvTruthy st.virtualEnv then
    { result := .passed
      logs := [⟨.info, "Virtual environment is active."⟩, log_progress (progress + 33)]
      printed := []
      progressGain := 33
      queriesIssued := [] }
  else
    { result := .failed "Virtual environment is not active. Please activate .venv."
      logs := [⟨.error, "Virtual environment is not active."⟩,
               ⟨.error, "Test Failed: Virtual environment is not active. Please activate .venv."⟩]
      printed := ["Test Failed: Virtual environment is not active. Please activate .venv."]
      progressGain := 0
      queriesIssued := [] }

/-- Result of the `for package in required_packages:` loop in
`test_requirements_installed`: either the loop finishes (`ok`, carrying
the spawned queries, the info logs for installed packages, and the
accumulated `missing_packages` list), or a spawn failure raises an
uncaught `OSError` at some package (`raised`), ending the loop there with
the local `missing_packages` list discarded. -/
inductive LoopOut where
  | ok (queries : List String) (logs : List LogEntry) (missing : List String)
  | raised (queries : List String) (logs : List LogEntry)
  deriving DecidableEq, Repr

/-- The per-package loop of `test_requirements_installed`.  Only
`subprocess.CalledProcessError` (a non-zero exit status) is caught and
appends the package to `missing_packages`; a spawn failure propagates,
aborting the loop with the remaining packages unqueried. -/
def queryLoop (query : String → QueryOutcome) : List String → LoopOut
  | [] => .ok [] [] []
  | p :: rest =>
    match query p with
    | .installed =>
      match queryLoop query rest with
      | .ok qs ls ms => .ok (p :: qs) (⟨.info, s!"Required {p} is installed."⟩ :: ls) ms
      | .raised qs ls => .raised (p :: qs) (⟨.info, s!"Required {p} is installed."⟩ :: ls)
    | .notInstalled =>
      match queryLoop query rest with
      | .ok qs ls ms => .ok (p :: qs) ls (p :: ms)
      | .raised qs ls => .raised (p :: qs) ls
    | .spawnError => .raised [p] []

/-- The body of `test_requirements_installed`: skip when the file is
missing, otherwise parse it, query each requirement, and either fail
(logging the combined missing-packages message and a `Test Failed:` line)
or pass, adding the remaining 34 percent. -/
def test_requirements_installed (st : SystemState) (progress : Nat) : CheckRun :=
  match st.requirementsFile with
  | none =>
    { result := .skipped "requirements.txt is missing, cannot verify installed packages."
      logs := [⟨.error, "requirements.txt is missing."⟩]
      printed := []
      progressGain := 0
      queriesIssued := [] }
  | some fileLines =>
    let required := parseRequirements fileLines
    match queryLoop st.query required with
    | .raised qs ls =>
      { result := .errored
        logs := ls
        printed := []
        progressGain := 0
        queriesIssued := qs }
    | .ok qs ls missing =>
      if !missing.isEmpty then
        { result := .failed "Some packages from requirements.txt are not installed in the virtual environment."
          logs := ls ++
            [⟨.error, "Missing required packages: " ++ String.intercalate ", " missing⟩,
             ⟨.error, "Test Failed: Some packages from requirements.txt are not installed in the virtual environment."⟩]
          printed := ["Test Failed: Some packages from requirements.txt are not installed in the virtual environment."]
          progressGain := 0
          queriesIssued := qs }
      else
        { result := .passed
          logs := ls ++
            [⟨.info, "All packages in requirements.txt are installed."⟩,
             log_progress (progress + 34)]
          printed := []
          progressGain := 34
          queriesIssued := qs }

/-- What `setUp` produces for a test method when `requirements.txt` does
not exist: it logs an error and calls `self.skipTest`, so the method body
never runs, nothing is printed, no query is spawned and no progress is
gained. -/
def skippedRun : CheckRun :=
  { result := .skipped "requirements.txt file is missing."
    logs := [⟨.error, "requirements.txt file is missing."⟩]
    printed := []
    progressGain := 0
    queriesIssued := [] }

/-- One test-method execution under `unittest`, including the `setUp`
hook: when `requirements.txt` does not exist the method is skipped;
otherwise the body runs and the global `progress` counter advances by its
gain. -/
def runTest (st : SystemState) (body : SystemState → Nat → CheckRun)
    (progress : Nat) : CheckRun × Nat :=
  if st.requirementsFile.isSome then
    let r := body st progress
    (r, progress + r.progressGain)
  else
    (skippedRun, progress)

/-- The outcome of one whole run of the suite: the three check runs and
the final value of the global `progress` counter. -/
structure RunOutcome where
  requirements_installed : CheckRun
  venv_exists : CheckRun
  venv_is_active : CheckRun
  finalProgress : Nat
  deriving DecidableEq, Repr

/-- `unittest.main` runs the three test methods in alphabetical order of
their names: `test_requirements_installed`, then `test_venv_exists`, then
`test_venv_is_active`, each preceded by `setUp`, the global `progress`
counter starting at 0. -/
def runAll (st : SystemState) : RunOutcome :=
  let a := runTest st test_requirements_installed 0
  let b := runTest st test_venv_exists a.2
  let c := runTest st test_venv_is_active b.2
  { requirements_installed := a.1
    venv_exists := b.1
    venv_is_active := c.1
    finalProgress := c.2 }

/-- Concrete state exercising the spawn-failure path: `requirements.txt`
declares two packages and every `pip show` spawn fails with an `OSError`. -/
def stateSpawnFail : SystemState :=
  { dotVenvExists := true
    virtualEnv := some "/proj/.venv"
    requirementsFile := some ["alpha", "beta"]
    query := fun _ => QueryOutcome.spawnError }

/-- Concrete state with one installed and one uninstalled declared package. -/
def stateMixedInstall : SystemState :=
  { dotVenvExists := true
    virtualEnv := some "/proj/.venv"
    requirementsFile := some ["goodpkg", "badpkg"]
    query := fun p => if p == "goodpkg" then QueryOutcome.installed else QueryOutcome.notInstalled }

/-- Concrete state whose requirements file holds only a comment line, a
whitespace-only line and an empty line; the query would report every
package missing, which shows that no query is issued at all. -/
def stateCommentsOnly : SystemState :=
  { dotVenvExists := true
    virtualEnv := some "/proj/.venv"
    requirementsFile := some ["# comment only", "   ", ""]
    query := fun _ => QueryOutcome.notInstalled }

/-- Concrete state where every check fails: no `.venv` folder, no
`VIRTUAL_ENV` variable, and the one declared package not installed. -/
def stateAllChecksFail : SystemState :=
  { dotVenvExists := false
    virtualEnv := none
    requirementsFile := some ["missingpkg"]
    query := fun _ => QueryOutcome.notInstalled }

/-- `stateAllChecksFail` with the `.venv` folder restored, to show the
other two checks do not depend on the folder. -/
def stateFolderRestored : SystemState :=
  { stateAllChecksFail with dotVenvExists := true }

/-
Helper lemmas about the embedded operations.
-/

/-- The comprehension keeps, in order, the stripped forms of exactly the
lines whose stripped form is non-empty and does not start with `#`. -/
theorem parseRequirements_eq_filter (lines : List String) :
    parseRequirements lines
      = (lines.map pyStrip).filter (fun s => s != "" && !(pyStartsWith s "#")) := by
  induction lines with
  | nil => rfl
  | cons l rest ih =>
    show (if pyStrip l != "" && !(pyStartsWith (pyStrip l) "#")
        then pyStrip l :: parseRequirements rest else parseRequirements rest) = _
    rw [List.map_cons, List.filter_cons]
    by_cases h : (pyStrip l != "" && !(pyStartsWith (pyStrip l) "#")) = true
    · rw [if_pos h, ih, if_pos (by simpa using h)]
    · rw [if_neg h, ih, if_neg (by simpa using h)]

/-- A requirements file whose every line strips to empty or to a comment
parses to the empty requirement list. -/
theorem parseRequirements_eq_nil (lines : List String)
    (h : ∀ l ∈ lines, pyStrip l = "" ∨ pyStartsWith (pyStrip l) "#" = true) :
    parseRequirements lines = [] := by
  induction lines with
  | nil => rfl
  | cons l rest ih =>
    have hl := h l (List.mem_cons_self l rest)
    have hrest : ∀ r ∈ rest, pyStrip r = "" ∨ pyStartsWith (pyStrip r) "#" = true :=
      fun r hr => h r (List.mem_cons_of_mem _ hr)
    show (if pyStrip l != "" && !(pyStartsWith (pyStrip l) "#")
        then pyStrip l :: parseRequirements rest else parseRequirements rest) = []
    rcases hl with hl | hl
    · rw [if_neg (by simp [hl])]
      exact ih hrest
    · rw [if_neg (by simp [hl])]
      exact ih hrest

/-- When no spawn fails, the loop queries every package in order, logs an
info record for each installed package, and collects as missing exactly
the packages whose query exits non-zero. -/
theorem queryLoop_no_spawn (query : String → QueryOutcome) (packages : List String)
    (h : ∀ p ∈ packages, query p ≠ QueryOutcome.spawnError) :
    queryLoop query packages
      = LoopOut.ok packages
          ((packages.filter (fun p => query p == QueryOutcome.installed)).map
            (fun p => LogEntry.mk Level.info s!"Required {p} is installed."))
          (packages.filter (fun p => query p == QueryOutcome.notInstalled)) := by
  induction packages with
  | nil => rfl
  | cons q rest ih =>
    have hq := h q (List.mem_cons_self q rest)
    have hrest : ∀ r ∈ rest, query r ≠ QueryOutcome.spawnError :=
      fun r hr => h r (List.mem_cons_of_mem _ hr)
    cases hcase : query q with
    | installed => simp [queryLoop, hcase, ih hrest, List.filter_cons]
    | notInstalled => simp [queryLoop, hcase, ih hrest, List.filter_cons]
    | spawnError => exact absurd hcase hq

/-- If the packages before `p` spawn successfully and the spawn for `p`
fails, the loop raises at `p`: exactly the packages up to and including
`p` were queried, and only info records were logged. -/
theorem queryLoop_spawn_split (query : String → QueryOutcome) (pre : List String)
    (p : String) (post : List String)
    (hpre : ∀ q ∈ pre, query q ≠ QueryOutcome.spawnError)
    (hp : query p = QueryOutcome.spawnError) :
    ∃ ls, queryLoop query (pre ++ p :: post) = LoopOut.raised (pre ++ [p]) ls ∧
      ∀ e ∈ ls, e.level = Level.info := by
  induction pre with
  | nil => exact ⟨[], by simp [queryLoop, hp], by simp⟩
  | cons q rest ih =>
    have hq := hpre q (List.mem_cons_self q rest)
    have hrest : ∀ r ∈ rest, query r ≠ QueryOutcome.spawnError :=
      fun r hr => hpre r (List.mem_cons_of_mem _ hr)
    obtain ⟨ls, hls, hinfo⟩ := ih hrest
    cases hcase : query q with
    | installed =>
      refine ⟨LogEntry.mk Level.info s!"Required {q} is installed." :: ls, ?_, ?_⟩
      · simp [queryLoop, hcase, hls]
      · intro e he
        rcases List.mem_cons.mp he with he | he
        · rw [he]
        · exact hinfo e he
    | notInstalled =>
      exact ⟨ls, by simp [queryLoop, hcase, hls], hinfo⟩
    | spawnError => exact absurd hcase hq

/-- The recorded result of the existence check depends only on whether the
`.venv` directory exists. -/
theorem test_venv_exists_result (st : SystemState) (progress : Nat) :
    (test_venv_exists st progress).result
      = (if st.dotVenvExists then CheckResult.passed
         else CheckResult.failed "Virtual environment (.venv) not found.") := by
  unfold test_venv_exists
  split <;> rfl

/-- The recorded result of the activation check depends only on the
truthiness of `VIRTUAL_ENV`. -/
theorem test_venv_is_active_result (st : SystemState) (progress : Nat) :
    (test_venv_is_active st progress).result
      = (if getenvTruthy st.virtualEnv then CheckResult.passed
         else CheckResult.failed "Virtual environment is not active. Please activate .venv.") := by
  unfold test_venv_is_active
  split <;> rfl

/-- The recorded result of the dependency check depends only on the
requirements file and the query outcomes. -/
theorem test_requirements_installed_result (st : SystemState) (progress : Nat) :
    (test_requirements_installed st progress).result
      = (match st.requirementsFile with
         | none => CheckResult.skipped "requirements.txt is missing, cannot verify installed packages."
         | some fileLines =>
           match queryLoop st.query (parseRequirements fileLines) with
           | .raised _ _ => CheckResult.errored
           | .ok _ _ missing =>
             if !missing.isEmpty then
               CheckResult.failed "Some packages from requirements.txt are not installed in the virtual environment."
             else CheckResult.passed) := by
  cases hf : st.requirementsFile with
  | none => simp [test_requirements_installed, hf]
  | some fileLines =>
    simp only [test_requirements_installed, hf]
    cases hq : queryLoop st.query (parseRequirements fileLines) with
    | raised qs ls => simp [hq]
    | ok qs ls missing =>
      by_cases hm : missing.isEmpty
      · simp [hq, hm]
      · simp [hq, hm]

/-
Claim theorems.
-/

/-- C6: parsing the requirements file strips whitespace from each line and
drops blank lines and lines whose stripped form starts with `#`,
preserving the order of the remaining lines; on the input lines
`["requests", "# comment", "", "flask"]` the result is exactly
`["requests", "flask"]`. -/
theorem C6_requirements_parsing (lines : List String) :
    parseRequirements ["requests", "# comment", "", "flask"] = ["requests", "flask"] ∧
    parseRequirements lines
      = (lines.map pyStrip).filter (fun s => s != "" && !(pyStartsWith s "#")) :=
  ⟨by decide, parseRequirements_eq_filter lines⟩

/-- C7: the activation check passes exactly when `VIRTUAL_ENV` is present
and non-empty; otherwise it records the fixed failure, and its result
never depends on whether the `.venv` folder exists. -/
theorem C7_activation_check (st : SystemState) (progress : Nat) :
    ((test_venv_is_active st progress).result = CheckResult.passed ↔
      ∃ s, st.virtualEnv = some s ∧ s ≠ "") ∧
    ((test_venv_is_active st progress).result = CheckResult.passed ∨
      (test_venv_is_active st progress).result
        = CheckResult.failed "Virtual environment is not active. Please activate .venv.") ∧
    (test_venv_is_active st progress).result
      = (test_venv_is_active { st with dotVenvExists := !st.dotVenvExists } progress).result := by
  cases h : st.virtualEnv with
  | none => simp [test_venv_is_active, getenvTruthy, h]
  | some s =>
    by_cases hs : s = ""
    · subst hs
      simp [test_venv_is_active, getenvTruthy, h]
    · simp [test_venv_is_active, getenvTruthy, h, hs]

/-- C3: when `requirements.txt` is absent the dependency check reports
Skipped — a result distinct from any Failed result — and no package-query
subprocess is spawned by any check in that run. -/
theorem C3_absent_requirements_file (st : SystemState) :
    (runAll { st with requirementsFile := none }).requirements_installed.result
        = CheckResult.skipped "requirements.txt file is missing." ∧
    (∀ m, (runAll { st with requirementsFile := none }).requirements_installed.result
        ≠ CheckResult.failed m) ∧
    (runAll { st with requirementsFile := none }).requirements_installed.queriesIssued = [] ∧
    (runAll { st with requirementsFile := none }).venv_exists.queriesIssued = [] ∧
    (runAll { st with requirementsFile := none }).venv_is_active.queriesIssued = [] := by
  simp [runAll, runTest, skippedRun]

/-- C10: when `requirements.txt` is absent, the `setUp` hook skips every
test method, so all three checks report Skipped and the progress counter
stays at 0. -/
theorem C10_setup_skips_all_checks (st : SystemState) :
    (runAll { st with requirementsFile := none }).requirements_installed.result
        = CheckResult.skipped "requirements.txt file is missing." ∧
    (runAll { st with requirementsFile := none }).venv_exists.result
        = CheckResult.skipped "requirements.txt file is missing." ∧
    (runAll { st with requirementsFile := none }).venv_is_active.result
        = CheckResult.skipped "requirements.txt file is missing." ∧
    (runAll { st with requirementsFile := none }).finalProgress = 0 := by
  simp [runAll, runTest, skippedRun]

/-- C2 (divergence witness): on failure the existence and activation
checks print only the one-line `Test Failed:` message produced by the
overridden `fail`; the multi-step remediation guide constants
`GUIDE_IF_DOT_VENV_MISSING` and `GUIDE_IF_INACTIVE` are never printed. -/
theorem C2_guides_never_printed (st : SystemState) (progress : Nat) :
    (test_venv_exists { st with dotVenvExists := false } progress).printed
        = ["Test Failed: Virtual environment (.venv) not found."] ∧
    (test_venv_is_active { st with virtualEnv := none } progress).printed
        = ["Test Failed: Virtual environment is not active. Please activate .venv."] ∧
    GUIDE_IF_DOT_VENV_MISSING ∉ (test_venv_exists st progress).printed ∧
    GUIDE_IF_INACTIVE ∉ (test_venv_is_active st progress).printed := by
  refine ⟨by simp [test_venv_exists], by simp [test_venv_is_active, getenvTruthy], ?_, ?_⟩
  · unfold test_venv_exists
    split
    · simp
    · simp only [List.mem_singleton]
      decide
  · unfold test_venv_is_active
    split
    · simp
    · simp only [List.mem_singleton]
      decide

/-- C5: the progress counter gains 34 for a passing dependency check and
33 for each of the passing existence and activation checks, a
non-passing check gains nothing, the final counter is the sum of the
three gains, and it ends at exactly 100 if and only if all three checks
pass. -/
theorem C5_progress_counter (st : SystemState) :
    (runAll st).requirements_installed.progressGain
        = (if (runAll st).requirements_installed.result = CheckResult.passed then 34 else 0) ∧
    (runAll st).venv_exists.progressGain
        = (if (runAll st).venv_exists.result = CheckResult.passed then 33 else 0) ∧
    (runAll st).venv_is_active.progressGain
        = (if (runAll st).venv_is_active.result = CheckResult.passed then 33 else 0) ∧
    (runAll st).finalProgress
        = (runAll st).requirements_installed.progressGain
          + (runAll st).venv_exists.progressGain
          + (runAll st).venv_is_active.progressGain ∧
    ((runAll st).finalProgress = 100 ↔
      ((runAll st).requirements_installed.result = CheckResult.passed ∧
       (runAll st).venv_exists.result = CheckResult.passed ∧
       (runAll st).venv_is_active.result = CheckResult.passed)) := by
  cases hf : st.requirementsFile with
  | none => simp [runAll, runTest, skippedRun, hf]
  | some fileLines =>
    have hs : st.requirementsFile.isSome = true := by rw [hf]; rfl
    cases hq : queryLoop st.query (parseRequirements fileLines) with
    | raised qs ls =>
      cases hd : st.dotVenvExists <;> cases hv : getenvTruthy st.virtualEnv <;>
        simp [runAll, runTest, test_requirements_installed, test_venv_exists,
          test_venv_is_active, hf, hq, hd, hv, hs]
    | ok qs ls missing =>
      by_cases hm : missing.isEmpty <;>
        cases hd : st.dotVenvExists <;> cases hv : getenvTruthy st.virtualEnv <;>
          simp [runAll, runTest, test_requirements_installed, test_venv_exists,
            test_venv_is_active, hf, hq, hd, hv, hm, hs]

/-- C1 counterexample: with requirements `["alpha", "beta"]` and every
query spawn failing, the dependency check ends as an uncaught-error
result, only `alpha` was ever queried — the loop did not continue to
`beta` — nothing was logged, and no failure naming a missing package was
recorded, contradicting the claim that a spawn failure is treated as the
package being missing and the loop continues. -/
theorem C1_counterexample :
    (test_requirements_installed stateSpawnFail 0).result = CheckResult.errored ∧
    (test_requirements_installed stateSpawnFail 0).queriesIssued = ["alpha"] ∧
    "beta" ∉ (test_requirements_installed stateSpawnFail 0).queriesIssued ∧
    (test_requirements_installed stateSpawnFail 0).logs = [] := by
  decide

/-- C1 amended: only a query that runs and exits non-zero marks a package
missing; a failure to spawn the query is not caught by the
per-requirement handler, so the dependency check stops at the first
requirement whose spawn fails — that requirement is not added to the
missing list, later requirements are never queried, no error record is
logged by the check, no progress is gained, and the test runner records
the check as errored. -/
theorem C1_spawn_failure_aborts (st : SystemState) (fileLines pre post : List String)
    (p : String) (progress : Nat)
    (hfile : st.requirementsFile = some fileLines)
    (hsplit : parseRequirements fileLines = pre ++ p :: post)
    (hpre : ∀ q ∈ pre, st.query q ≠ QueryOutcome.spawnError)
    (hp : st.query p = QueryOutcome.spawnError) :
    (test_requirements_installed st progress).result = CheckResult.errored ∧
    (test_requirements_installed st progress).queriesIssued = pre ++ [p] ∧
    (test_requirements_installed st progress).progressGain = 0 ∧
    ∀ e ∈ (test_requirements_installed st progress).logs, e.level = Level.info := by
  obtain ⟨ls, hls, hinfo⟩ := queryLoop_spawn_split st.query pre p post hpre hp
  rw [← hsplit] at hls
  simp only [test_requirements_installed, hfile, hls]
  exact ⟨trivial, trivial, trivial, hinfo⟩

/-- Witness for the amended C1 theorem at the concrete spawn-failure
state. -/
theorem C1_spawn_failure_aborts_witness :
    (test_requirements_installed stateSpawnFail 0).result = CheckResult.errored ∧
    (test_requirements_installed stateSpawnFail 0).queriesIssued = [] ++ ["alpha"] ∧
    (test_requirements_installed stateSpawnFail 0).progressGain = 0 := by
  have h := C1_spawn_failure_aborts stateSpawnFail ["alpha", "beta"] [] ["beta"] "alpha" 0
    rfl (by decide) (by simp) rfl
  exact ⟨h.1, h.2.1, h.2.2.1⟩

/-- C4: when at least one declared package is missing (and every query
spawn succeeds), the dependency check fails with the fixed combined
message, logs an error record naming exactly the missing packages — the
declared packages whose query exited non-zero, in order — and every
package found installed is logged as present and is not among the
missing. -/
theorem C4_missing_packages_named (st : SystemState) (fileLines : List String) (progress : Nat)
    (hfile : st.requirementsFile = some fileLines)
    (hnospawn : ∀ p ∈ parseRequirements fileLines, st.query p ≠ QueryOutcome.spawnError)
    (hmiss : (parseRequirements fileLines).filter
        (fun p => st.query p == QueryOutcome.notInstalled) ≠ []) :
    (test_requirements_installed st progress).result
        = CheckResult.failed "Some packages from requirements.txt are not installed in the virtual environment." ∧
    LogEntry.mk Level.error
        ("Missing required packages: " ++ String.intercalate ", "
          ((parseRequirements fileLines).filter (fun p => st.query p == QueryOutcome.notInstalled)))
      ∈ (test_requirements_installed st progress).logs ∧
    ∀ p ∈ parseRequirements fileLines, st.query p = QueryOutcome.installed →
      p ∉ (parseRequirements fileLines).filter (fun p => st.query p == QueryOutcome.notInstalled) ∧
      LogEntry.mk Level.info s!"Required {p} is installed."
        ∈ (test_requirements_installed st progress).logs := by
  have hq := queryLoop_no_spawn st.query (parseRequirements fileLines) hnospawn
  have hne : ((parseRequirements fileLines).filter
      (fun p => st.query p == QueryOutcome.notInstalled)).isEmpty = false := by
    cases hcase : (parseRequirements fileLines).filter
        (fun p => st.query p == QueryOutcome.notInstalled) with
    | nil => exact absurd hcase hmiss
    | cons a l => rfl
  simp only [test_requirements_installed, hfile, hq, hne, Bool.not_false, if_true]
  refine ⟨trivial, ?_, ?_⟩
  · exact List.mem_append_right _ (List.mem_cons_self _ _)
  · intro p hp hinst
    constructor
    · intro hmem
      have := (List.mem_filter.mp hmem).2
      rw [hinst] at this
      exact absurd this (by decide)
    · refine List.mem_append_left _ ?_
      exact List.mem_map.mpr
        ⟨p, List.mem_filter.mpr ⟨hp, by rw [hinst]; rfl⟩, rfl⟩

/-- Witness for C4 at the concrete one-installed-one-missing state. -/
theorem C4_missing_packages_named_witness :
    (test_requirements_installed stateMixedInstall 0).result
        = CheckResult.failed "Some packages from requirements.txt are not installed in the virtual environment." ∧
    LogEntry.mk Level.error
        ("Missing required packages: " ++ String.intercalate ", "
          ((parseRequirements ["goodpkg", "badpkg"]).filter
            (fun p => stateMixedInstall.query p == QueryOutcome.notInstalled)))
      ∈ (test_requirements_installed stateMixedInstall 0).logs ∧
    "goodpkg" ∉ (parseRequirements ["goodpkg", "badpkg"]).filter
        (fun p => stateMixedInstall.query p == QueryOutcome.notInstalled) ∧
    LogEntry.mk Level.info "Required goodpkg is installed."
      ∈ (test_requirements_installed stateMixedInstall 0).logs := by
  have h := C4_missing_packages_named stateMixedInstall ["goodpkg", "badpkg"] 0 rfl
    (by decide) (by decide)
  have h3 := h.2.2 "goodpkg" (by decide) rfl
  exact ⟨h.1, h.2.1, h3.1, h3.2⟩

/-- C8: for a requirements file that exists but holds only blank and
comment lines, the requirement list is empty, no package query is
spawned, and the dependency check passes, gaining its full 34 points. -/
theorem C8_comment_only_requirements (st : SystemState) (fileLines : List String) (progress : Nat)
    (hfile : st.requirementsFile = some fileLines)
    (hlines : ∀ l ∈ fileLines, pyStrip l = "" ∨ pyStartsWith (pyStrip l) "#" = true) :
    parseRequirements fileLines = [] ∧
    (test_requirements_installed st progress).queriesIssued = [] ∧
    (test_requirements_installed st progress).result = CheckResult.passed ∧
    (test_requirements_installed st progress).progressGain = 34 := by
  have hnil := parseRequirements_eq_nil fileLines hlines
  have hq : queryLoop st.query (parseRequirements fileLines) = LoopOut.ok [] [] [] := by
    rw [hnil]; rfl
  refine ⟨hnil, ?_, ?_, ?_⟩ <;>
    simp [test_requirements_installed, hfile, hq]

/-- Witness for C8 at the concrete comment-and-blank-only state, whose
query would report every package missing — showing no query is consulted. -/
theorem C8_comment_only_requirements_witness :
    parseRequirements ["# comment only", "   ", ""] = [] ∧
    (test_requirements_installed stateCommentsOnly 0).queriesIssued = [] ∧
    (test_requirements_installed stateCommentsOnly 0).result = CheckResult.passed ∧
    (test_requirements_installed stateCommentsOnly 0).progressGain = 34 :=
  C8_comment_only_requirements stateCommentsOnly ["# comment only", "   ", ""] 0 rfl
    (by decide)

/-- The first run component is the dependency check at progress 0, or the
skip produced by `setUp`. -/
theorem runAll_requirements_installed_run (st : SystemState) :
    (runAll st).requirements_installed
      = if st.requirementsFile.isSome then test_requirements_installed st 0
        else skippedRun := by
  by_cases h : st.requirementsFile.isSome <;> simp [runAll, runTest, h]

/-- The second run component is the existence check, or the skip produced
by `setUp`. -/
theorem runAll_venv_exists_run (st : SystemState) :
    (runAll st).venv_exists
      = if st.requirementsFile.isSome
        then test_venv_exists st (runTest st test_requirements_installed 0).2
        else skippedRun := by
  by_cases h : st.requirementsFile.isSome <;> simp [runAll, runTest, h]

/-- The third run component is the activation check, or the skip produced
by `setUp`. -/
theorem runAll_venv_is_active_run (st : SystemState) :
    (runAll st).venv_is_active
      = if st.requirementsFile.isSome
        then test_venv_is_active st
          (runTest st test_venv_exists (runTest st test_requirements_installed 0).2).2
        else skippedRun := by
  by_cases h : st.requirementsFile.isSome <;> simp [runAll, runTest, h]

/-- A failing existence check logs the `Test Failed:` line at error level
and prints the same line. -/
theorem test_venv_exists_failed_log (st : SystemState) (progress : Nat) (m : String)
    (h : (test_venv_exists st progress).result = CheckResult.failed m) :
    LogEntry.mk Level.error ("Test Failed: " ++ m) ∈ (test_venv_exists st progress).logs ∧
    ("Test Failed: " ++ m) ∈ (test_venv_exists st progress).printed := by
  cases hd : st.dotVenvExists
  · simp [test_venv_exists, hd] at h
    subst h
    refine ⟨?_, ?_⟩ <;> simp [test_venv_exists, hd]
  · simp [test_venv_exists, hd] at h

/-- A failing activation check logs the `Test Failed:` line at error
level and prints the same line. -/
theorem test_venv_is_active_failed_log (st : SystemState) (progress : Nat) (m : String)
    (h : (test_venv_is_active st progress).result = CheckResult.failed m) :
    LogEntry.mk Level.error ("Test Failed: " ++ m) ∈ (test_venv_is_active st progress).logs ∧
    ("Test Failed: " ++ m) ∈ (test_venv_is_active st progress).printed := by
  cases hv : getenvTruthy st.virtualEnv
  · simp [test_venv_is_active, hv] at h
    subst h
    refine ⟨?_, ?_⟩ <;> simp [test_venv_is_active, hv]
  · simp [test_venv_is_active, hv] at h

/-- A failing dependency check logs the `Test Failed:` line at error
level and prints the same line. -/
theorem test_requirements_installed_failed_log (st : SystemState) (progress : Nat) (m : String)
    (h : (test_requirements_installed st progress).result = CheckResult.failed m) :
    LogEntry.mk Level.error ("Test Failed: " ++ m)
        ∈ (test_requirements_installed st progress).logs ∧
    ("Test Failed: " ++ m) ∈ (test_requirements_installed st progress).printed := by
  cases hf : st.requirementsFile with
  | none => simp [test_requirements_installed, hf] at h
  | some fileLines =>
    cases hq : queryLoop st.query (parseRequirements fileLines) with
    | raised qs ls => simp [test_requirements_installed, hf, hq] at h
    | ok qs ls missing =>
      by_cases hm : missing.isEmpty
      · simp [test_requirements_installed, hf, hq, hm] at h
      · simp only [test_requirements_installed, hf, hq] at h ⊢
        simp [hm] at h
        subst h
        simp [hm]

/-- When the requirements file exists, the dependency check never reports
Skipped. -/
theorem test_requirements_installed_not_skipped (st : SystemState) (progress : Nat)
    (fileLines : List String) (hf : st.requirementsFile = some fileLines) (m : String) :
    (test_requirements_installed st progress).result ≠ CheckResult.skipped m := by
  intro h
  cases hq : queryLoop st.query (parseRequirements fileLines) with
  | raised qs ls => simp [test_requirements_installed, hf, hq] at h
  | ok qs ls missing =>
    by_cases hm : missing.isEmpty
    · simp [test_requirements_installed, hf, hq, hm] at h
    · simp [test_requirements_installed, hf, hq, hm] at h

/-- C9: every failure kind is handled inside the check that detects it: a
failed check logs an error-level `Test Failed:` record and prints the
same line without raising, a skipped check logs its reason at error
level, and each check result is a function of that check inputs only, so
no check failing can prevent or change another check. -/
theorem C9_failures_handled_locally (st other : SystemState) (m : String) :
    ((runAll st).venv_exists.result = CheckResult.failed m →
      LogEntry.mk Level.error ("Test Failed: " ++ m) ∈ (runAll st).venv_exists.logs ∧
      ("Test Failed: " ++ m) ∈ (runAll st).venv_exists.printed) ∧
    ((runAll st).venv_is_active.result = CheckResult.failed m →
      LogEntry.mk Level.error ("Test Failed: " ++ m) ∈ (runAll st).venv_is_active.logs ∧
      ("Test Failed: " ++ m) ∈ (runAll st).venv_is_active.printed) ∧
    ((runAll st).requirements_installed.result = CheckResult.failed m →
      LogEntry.mk Level.error ("Test Failed: " ++ m) ∈ (runAll st).requirements_installed.logs ∧
      ("Test Failed: " ++ m) ∈ (runAll st).requirements_installed.printed) ∧
    ((runAll st).requirements_installed.result = CheckResult.skipped m →
      LogEntry.mk Level.error m ∈ (runAll st).requirements_installed.logs) ∧
    (st.virtualEnv = other.virtualEnv → st.requirementsFile = other.requirementsFile →
      (runAll st).venv_is_active.result = (runAll other).venv_is_active.result) ∧
    (st.query = other.query → st.requirementsFile = other.requirementsFile →
      (runAll st).requirements_installed.result
        = (runAll other).requirements_installed.result) ∧
    (st.dotVenvExists = other.dotVenvExists → st.requirementsFile = other.requirementsFile →
      (runAll st).venv_exists.result = (runAll other).venv_exists.result) := by
  refine ⟨?_, ?_, ?_, ?_, ?_, ?_, ?_⟩
  · intro h
    rw [runAll_venv_exists_run] at h ⊢
    by_cases hs : st.requirementsFile.isSome
    · rw [if_pos hs] at h ⊢
      exact test_venv_exists_failed_log st _ m h
    · rw [if_neg hs] at h
      simp [skippedRun] at h
  · intro h
    rw [runAll_venv_is_active_run] at h ⊢
    by_cases hs : st.requirementsFile.isSome
    · rw [if_pos hs] at h ⊢
      exact test_venv_is_active_failed_log st _ m h
    · rw [if_neg hs] at h
      simp [skippedRun] at h
  · intro h
    rw [runAll_requirements_installed_run] at h ⊢
    by_cases hs : st.requirementsFile.isSome
    · rw [if_pos hs] at h ⊢
      exact test_requirements_installed_failed_log st 0 m h
    · rw [if_neg hs] at h
      simp [skippedRun] at h
  · intro h
    rw [runAll_requirements_installed_run] at h ⊢
    by_cases hs : st.requirementsFile.isSome
    · rw [if_pos hs] at h
      obtain ⟨fl, hfl⟩ := Option.isSome_iff_exists.mp hs
      exact absurd h (test_requirements_installed_not_skipped st 0 fl hfl m)
    · rw [if_neg hs] at h ⊢
      simp [skippedRun] at h
      subst h
      simp [skippedRun]
  · intro henv hreq
    rw [runAll_venv_is_active_run st, runAll_venv_is_active_run other, hreq]
    by_cases hs : other.requirementsFile.isSome
    · rw [if_pos hs, if_pos hs, test_venv_is_active_result, test_venv_is_active_result, henv]
    · rw [if_neg hs, if_neg hs]
  · intro hq hreq
    rw [runAll_requirements_installed_run st, runAll_requirements_installed_run other, hreq]
    by_cases hs : other.requirementsFile.isSome
    · rw [if_pos hs, if_pos hs, test_requirements_installed_result,
        test_requirements_installed_result, hreq, hq]
    · rw [if_neg hs, if_neg hs]
  · intro hd hreq
    rw [runAll_venv_exists_run st, runAll_venv_exists_run other, hreq]
    by_cases hs : other.requirementsFile.isSome
    · rw [if_pos hs, if_pos hs, test_venv_exists_result, test_venv_exists_result, hd]
    · rw [if_neg hs, if_neg hs]

/-- Witness for C9: at the everything-fails state the existence failure
is logged and printed, and restoring the folder changes nothing about the
other two checks. -/
theorem C9_failures_handled_locally_witness :
    LogEntry.mk Level.error ("Test Failed: " ++ "Virtual environment (.venv) not found.")
        ∈ (runAll stateAllChecksFail).venv_exists.logs ∧
    ("Test Failed: " ++ "Virtual environment (.venv) not found.")
        ∈ (runAll stateAllChecksFail).venv_exists.printed ∧
    (runAll stateAllChecksFail).venv_is_active.result
        = (runAll stateFolderRestored).venv_is_active.result ∧
    (runAll stateAllChecksFail).requirements_installed.result
        = (runAll stateFolderRestored).requirements_installed.result := by
  have h := C9_failures_handled_locally stateAllChecksFail stateFolderRestored
    "Virtual environment (.venv) not found."
  have h1 := h.1 (by decide)
  exact ⟨h1.1, h1.2, h.2.2.2.2.1 rfl rfl, h.2.2.2.2.2.1 rfl rfl⟩

end VenvChecker
